import Mathlib

/-!
Verification of the finnhub-n8n streaming bridge (`src/server.js`).

The file shallowly embeds the state and the handlers of the bridge:
the global statistics record, the symbol registry mutated by the HTTP
management endpoints, the news transformation and forwarding performed
by the WebSocket message handler, and the open/close/error handlers
that drive the reconnect state machine.  Time (`Date.now()`) is passed
in explicitly as a natural number of milliseconds; the outcome of the
HTTP POST to the sink is passed in as a boolean; frames sent on the
socket and HTTP posts attempted are returned as explicit lists of
effects.
-/

namespace Bridge

/-- `MAX_RECONNECT_ATTEMPTS` (server.js line 28). -/
def MAX_RECONNECT_ATTEMPTS : Nat := 10

/-- `BASE_RECONNECT_DELAY` in milliseconds (server.js line 29). -/
def BASE_RECONNECT_DELAY : Nat := 2000

/-- The global `stats` record (server.js lines 32-39).  `lastMessage` and
`connectionTime` are absolute times in milliseconds, `none` standing for
the initial `null`. -/
structure Stats where
  connected : Bool
  lastMessage : Option Nat
  messagesReceived : Nat
  messagesSent : Nat
  connectionTime : Option Nat
  errors : Nat
deriving DecidableEq, Repr

/-- ASCII uppercase of one character: the character mapping performed by
JavaScript `String.prototype.toUpperCase` on the ASCII range (ticker
symbols are ASCII). -/
def upperChar (c : Char) : Char :=
  if 97 ≤ c.toNat ∧ c.toNat ≤ 122 then Char.ofNat (c.toNat - 32) else c

/-- Model of `symbol.toUpperCase()` on ASCII strings. -/
def upperStr (s : String) : String := ⟨s.data.map upperChar⟩

theorem upperChar_idem (c : Char) : upperChar (upperChar c) = upperChar c := by
  by_cases h : 97 ≤ c.toNat ∧ c.toNat ≤ 122
  · obtain ⟨h1, h2⟩ := h
    have hstep : upperChar c = Char.ofNat (c.toNat - 32) := by
      unfold upperChar; rw [if_pos ⟨h1, h2⟩]
    rw [hstep]
    interval_cases hc : c.toNat <;> decide
  · unfold upperChar
    rw [if_neg h, if_neg h]

theorem upperStr_idem (s : String) : upperStr (upperStr s) = upperStr s := by
  unfold upperStr
  simp only [List.map_map]
  congr 1
  exact List.map_congr_left (fun c _ => upperChar_idem c)

/-- Response of `POST /symbols/add` (server.js lines 67-82): HTTP 200 with
the added symbol, or HTTP 400 with the single error string used for an
invalid symbol, a duplicate and a full registry alike. -/
inductive AddResponse where
  | added (symbol : String)
  | badRequest (error : String)
deriving DecidableEq, Repr

/-- Response of `DELETE /symbols/:symbol` (server.js lines 84-100). -/
inductive RemoveResponse where
  | removed (symbol : String)
  | notFound
deriving DecidableEq, Repr

/-- `POST /symbols/add` handler (server.js lines 67-82): the new `SYMBOLS`
list and the HTTP response.  The JavaScript guard is
`symbol && !SYMBOLS.includes(symbol.toUpperCase()) && SYMBOLS.length < 50`;
the empty string is falsy, `includes` is exact membership. -/
def addSymbol (SYMBOLS : List String) (symbol : String) : List String × AddResponse :=
  if symbol ≠ "" ∧ upperStr symbol ∉ SYMBOLS ∧ SYMBOLS.length < 50 then
    (SYMBOLS ++ [upperStr symbol], .added (upperStr symbol))
  else
    (SYMBOLS, .badRequest "Invalid symbol or limit reached (50 max)")

/-- `DELETE /symbols/:symbol` handler (server.js lines 84-100):
`indexOf` followed by `splice(index, 1)` removes the first occurrence. -/
def removeSymbol (SYMBOLS : List String) (symbol : String) : List String × RemoveResponse :=
  if upperStr symbol ∈ SYMBOLS then
    (SYMBOLS.erase (upperStr symbol), .removed (upperStr symbol))
  else
    (SYMBOLS, .notFound)

/-- One management operation on the symbol registry. -/
inductive RegistryOp where
  | add (s : String)
  | remove (s : String)
deriving DecidableEq, Repr

/-- Apply one registry operation, keeping only the resulting list. -/
def applyOp (l : List String) : RegistryOp → List String
  | .add s => (addSymbol l s).1
  | .remove s => (removeSymbol l s).1

/-- Apply a sequence of registry operations in order. -/
def applyOps (l : List String) (ops : List RegistryOp) : List String :=
  ops.foldl applyOp l

/-- Registry invariant: entries are pairwise distinct, at most 50, and
already in uppercase-normal form (as the startup list built by
`process.env.SYMBOLS.split(',').map(s => s.trim().toUpperCase())` is). -/
def RegInv (l : List String) : Prop :=
  l.Nodup ∧ l.length ≤ 50 ∧ ∀ s ∈ l, upperStr s = s

instance : DecidablePred RegInv := fun l =>
  inferInstanceAs (Decidable (l.Nodup ∧ l.length ≤ 50 ∧ ∀ s ∈ l, upperStr s = s))

theorem regInv_add (l : List String) (h : RegInv l) (s : String) :
    RegInv (addSymbol l s).1 := by
  obtain ⟨hnd, hle, hup⟩ := h
  unfold addSymbol
  split
  · next hcond =>
    obtain ⟨hne, hnotmem, hlen⟩ := hcond
    refine ⟨?_, ?_, ?_⟩
    · simp only [List.nodup_append, List.nodup_cons, List.not_mem_nil, not_false_iff,
        List.nodup_nil, and_true, true_and, List.disjoint_singleton]
      exact ⟨hnd, hnotmem⟩
    · simp only [List.length_append, List.length_cons, List.length_nil]
      omega
    · intro t ht
      rcases List.mem_append.mp ht with h1 | h2
      · exact hup t h1
      · have : t = upperStr s := by simpa using h2
        rw [this]
        exact upperStr_idem s
  · exact ⟨hnd, hle, hup⟩

theorem regInv_remove (l : List String) (h : RegInv l) (s : String) :
    RegInv (removeSymbol l s).1 := by
  obtain ⟨hnd, hle, hup⟩ := h
  unfold removeSymbol
  split
  · refine ⟨hnd.erase _, ?_, ?_⟩
    · exact le_trans (List.erase_sublist _ _).length_le hle
    · intro t ht
      exact hup t (List.mem_of_mem_erase ht)
  · exact ⟨hnd, hle, hup⟩

theorem regInv_applyOps (ops : List RegistryOp) (l : List String) (h : RegInv l) :
    RegInv (applyOps l ops) := by
  induction ops generalizing l with
  | nil => exact h
  | cons op ops ih =>
    have hstep : applyOps l (op :: ops) = applyOps (applyOp l op) ops := rfl
    rw [hstep]
    apply ih
    cases op with
    | add s => exact regInv_add l h s
    | remove s => exact regInv_remove l h s

/-- Value of the `related` field of a news frame: Finnhub may send a
string or an array, and the transformer may forward either shape. -/
inductive Related where
  | str (s : String)
  | arr (l : List String)
deriving DecidableEq, Repr

/-- An inbound news frame as parsed from JSON (server.js line 212 and the
news branch 217-233): every field the transformer reads, optional when
the JavaScript code guards it with `||`. -/
structure RawNews where
  symbol : String
  headline : String
  summary : Option String
  origin : Option String
  url : Option String
  image : Option String
  datetime : Option Nat
  category : Option String
  id : Option String
  related : Option Related
deriving DecidableEq, Repr

/-- The transformed news object built in the news branch
(server.js lines 221-233). -/
structure TransformedNews where
  symbol : String
  headline : String
  summary : String
  origin : String
  url : Option String
  image : Option String
  datetime : Option Nat
  category : String
  id : String
  related : Related
deriving DecidableEq, Repr

/-- JavaScript `a || b` for an optional string field: an absent field and
the empty string are both falsy. -/
def jsOr (x : Option String) (d : String) : String :=
  match x with
  | some s => if s = "" then d else s
  | none => d

/-- JavaScript `a || b` for the `related` field: absent and the empty
string are falsy, an array (even empty) is truthy. -/
def jsOrRelated (x : Option Related) (d : Related) : Related :=
  match x with
  | some (.str s) => if s = "" then d else .str s
  | some (.arr l) => .arr l
  | none => d

/-- The news transformation (server.js lines 221-233); `now` models
`Date.now()` in milliseconds. -/
def transformNews (m : RawNews) (now : Nat) : TransformedNews :=
  { symbol := m.symbol
    headline := m.headline
    summary := jsOr m.summary ""
    origin := jsOr m.origin "FinHub"
    url := m.url
    image := m.image
    datetime := m.datetime
    category := jsOr m.category "general"
    id := jsOr m.id (m.symbol ++ "-" ++ toString now)
    related := jsOrRelated m.related (.str m.symbol) }

/-- One HTTP POST attempted against the sink. -/
structure Post where
  url : String
  event : TransformedNews
deriving DecidableEq, Repr

/-- `sendToN8n` (server.js lines 111-145).  `webhookUrl` is
`N8N_WEBHOOK_URL` (`none` when unset; the empty string is falsy too, so
`if (!N8N_WEBHOOK_URL) return;` skips both).  `sinkOk` tells whether the
`axios.post` promise resolved (2xx) or rejected (non-2xx or transport
failure).  Returns the new stats and the list of posts attempted. -/
def sendToN8n (webhookUrl : Option String) (event : TransformedNews)
    (sinkOk : Bool) (stats : Stats) : Stats × List Post :=
  match webhookUrl with
  | none => (stats, [])
  | some url =>
    if url = "" then (stats, [])
    else if sinkOk then
      ({ stats with messagesSent := stats.messagesSent + 1 }, [⟨url, event⟩])
    else
      ({ stats with errors := stats.errors + 1 }, [⟨url, event⟩])

/-- An inbound frame after `JSON.parse`, classified the way the message
handler dispatches on `message.type`; `malformed` is a frame on which
`JSON.parse` throws. -/
inductive RawMessage where
  | news (m : RawNews)
  | ping
  | other
deriving DecidableEq, Repr

/-- A frame written to the upstream socket. -/
inductive OutFrame where
  | pong
  | subscribe (symbol : String)
  | unsubscribe (symbol : String)
deriving DecidableEq, Repr

/-- The `ws.on('message')` handler (server.js lines 210-250) on a frame
that parses; returns the new stats, the socket frames sent and the HTTP
posts attempted.  `messagesReceived` and `lastMessage` are updated for
every parsed frame before the dispatch on `message.type`. -/
def messageHandler (webhookUrl : Option String) (sinkOk : Bool) (now : Nat)
    (stats : Stats) (msg : RawMessage) : Stats × List OutFrame × List Post :=
  let stats1 := { stats with
    messagesReceived := stats.messagesReceived + 1
    lastMessage := some now }
  match msg with
  | .news m =>
    let r := sendToN8n webhookUrl (transformNews m now) sinkOk stats1
    (r.1, [], r.2)
  | .ping => (stats1, [.pong], [])
  | .other => (stats1, [], [])

/-- The catch branch of the message handler (server.js lines 245-249): a
frame on which `JSON.parse` throws only bumps the error counter —
`messagesReceived` and `lastMessage` are not touched because the
exception is raised before line 213. -/
def malformedHandler (stats : Stats) : Stats :=
  { stats with errors := stats.errors + 1 }

/-- The `ws.on('open')` handler (server.js lines 200-208): new stats, the
reset attempt counter, and the delay in milliseconds of the one-shot
timer that replays the subscriptions. -/
def openHandler (stats : Stats) (now : Nat) : Stats × Nat × Nat :=
  ({ stats with connected := true, connectionTime := some now }, 0, 1000)

/-- `subscribeToSymbol` (server.js lines 148-157): sends one subscribe
frame only when the socket is OPEN. -/
def subscribeToSymbol (wsOpen : Bool) (symbol : String) : List OutFrame :=
  if wsOpen then [.subscribe symbol] else []

/-- `subscribeToAllSymbols` (server.js lines 172-180): when the socket is
OPEN, iterates the registry in order, one frame per symbol. -/
def subscribeToAllSymbols (wsOpen : Bool) (SYMBOLS : List String) : List OutFrame :=
  if wsOpen then (SYMBOLS.map (subscribeToSymbol wsOpen)).flatten else []

/-- The `ws.on('close')` handler (server.js lines 258-275): clears the
connected flag; below the attempt ceiling it schedules a reconnect after
`min(BASE_RECONNECT_DELAY * 2 ^ attempts, 30000)` ms and increments the
counter; at the ceiling it schedules nothing and asks for a manual
restart.  Returns the new stats, the new counter and the scheduled
delay, if any. -/
def closeHandler (stats : Stats) (reconnectAttempts : Nat) : Stats × Nat × Option Nat :=
  let stats1 := { stats with connected := false }
  if reconnectAttempts < MAX_RECONNECT_ATTEMPTS then
    (stats1, reconnectAttempts + 1,
      some (min (BASE_RECONNECT_DELAY * 2 ^ reconnectAttempts) 30000))
  else
    (stats1, reconnectAttempts, none)

/-- The `ws.on('error')` handler (server.js lines 252-256). -/
def errorHandler (stats : Stats) : Stats :=
  { stats with errors := stats.errors + 1, connected := false }

/-- The `POST /restart` handler (server.js lines 103-108) resets the
reconnect attempt counter to this value before reconnecting. -/
def restartAttempts : Nat := 0

/-- The `readyState` of a `ws` WebSocket. -/
inductive WsReadyState where
  | connecting
  | opened
  | closing
  | closed
deriving DecidableEq, Repr

/-- A socket handle: a generation number distinguishing successive
connections, and its ready state. -/
structure WsHandle where
  gen : Nat
  readyState : WsReadyState
deriving DecidableEq, Repr

/-- Externally visible effects of one run of `connectToFinnhub`. -/
inductive ConnEffect where
  | terminate (gen : Nat)
  | newSocket (gen : Nat)
  | configError
deriving DecidableEq, Repr

/-- `connectToFinnhub` (server.js lines 183-198): terminates any existing
socket whose `readyState` is not CLOSED, then — if an API key is
configured — opens a fresh socket (tagged `gen`) and clears the
connected flag; with no API key it logs a configuration error and
returns, touching no counter. -/
def connectToFinnhub (hasApiKey : Bool) (ws : Option WsHandle) (stats : Stats)
    (gen : Nat) : Option WsHandle × Stats × List ConnEffect :=
  let cleanup :=
    match ws with
    | some h =>
      if h.readyState ≠ .closed then ((none : Option WsHandle), [ConnEffect.terminate h.gen])
      else (some h, [])
    | none => (none, [])
  if hasApiKey then
    (some ⟨gen, .connecting⟩, { stats with connected := false },
      cleanup.2 ++ [.newSocket gen])
  else
    (cleanup.1, stats, cleanup.2 ++ [.configError])

/-- A fixed concrete statistics record used by witnesses and counterexamples. -/
def stats0 : Stats :=
  { connected := true, lastMessage := some 5, messagesReceived := 3,
    messagesSent := 2, connectionTime := some 1, errors := 1 }

/-- C1: after k consecutive failures with k < 10, the close handler schedules
the next automatic reconnect after exactly min(2000ms * 2^k, 30000ms) and
increments the attempt counter to k + 1; once the counter has reached 10, a
close schedules no further automatic reconnect, and only the manual restart
endpoint resets the counter (to 0). -/
theorem C1_reconnect_backoff (stats : Stats) (k : Nat) :
    (k < MAX_RECONNECT_ATTEMPTS →
      (closeHandler stats k).2.2 = some (min (2000 * 2 ^ k) 30000) ∧
      (closeHandler stats k).2.1 = k + 1) ∧
    (MAX_RECONNECT_ATTEMPTS ≤ k →
      (closeHandler stats k).2.2 = none ∧ restartAttempts = 0) := by
  refine ⟨fun hk => ?_, fun hk => ?_⟩
  · simp [closeHandler, hk, BASE_RECONNECT_DELAY]
  · simp [closeHandler, Nat.not_lt.mpr hk, restartAttempts]

/-- Witness for C1 at k = 3 and at the ceiling k = 10. -/
theorem C1_reconnect_backoff_witness :
    (closeHandler stats0 3).2.2 = some (min (2000 * 2 ^ 3) 30000) ∧
    (closeHandler stats0 3).2.1 = 4 ∧
    (closeHandler stats0 10).2.2 = none :=
  ⟨((C1_reconnect_backoff stats0 3).1 (by decide)).1,
   ((C1_reconnect_backoff stats0 3).1 (by decide)).2,
   ((C1_reconnect_backoff stats0 10).2 (by decide)).1⟩

/-- C2: from any state satisfying the registry invariant, every sequence of
add/remove operations keeps the registry at no more than 50 topics with no
two equal topics after uppercase normalization; an add whose topic is
already present (after normalization) or arriving when the registry is full
leaves the registry unchanged and returns the 400 error. -/
theorem C2_registry_invariant (l : List String) (h : RegInv l)
    (ops : List RegistryOp) (s : String) :
    (applyOps l ops).length ≤ 50 ∧
    ((applyOps l ops).map upperStr).Nodup ∧
    ((upperStr s ∈ applyOps l ops ∨ 50 ≤ (applyOps l ops).length) →
      addSymbol (applyOps l ops) s =
        (applyOps l ops, AddResponse.badRequest "Invalid symbol or limit reached (50 max)")) := by
  obtain ⟨hnd, hle, hup⟩ := regInv_applyOps ops l h
  refine ⟨hle, ?_, ?_⟩
  · have hmap : (applyOps l ops).map upperStr = (applyOps l ops).map id :=
      List.map_congr_left (fun a ha => hup a ha)
    rw [hmap, List.map_id]
    exact hnd
  · intro hviol
    unfold addSymbol
    rw [if_neg]
    rintro ⟨h1, h2, h3⟩
    rcases hviol with hmem | hlen
    · exact h2 hmem
    · omega

/-- Witness for C2: start from ["AAPL"], add "msft", then attempt the
duplicate "aapl"; the registry is unchanged and the add fails. -/
theorem C2_registry_invariant_witness :
    (applyOps ["AAPL"] [RegistryOp.add "msft"]).length ≤ 50 ∧
    ((applyOps ["AAPL"] [RegistryOp.add "msft"]).map upperStr).Nodup ∧
    addSymbol (applyOps ["AAPL"] [RegistryOp.add "msft"]) "aapl" =
      (applyOps ["AAPL"] [RegistryOp.add "msft"],
        AddResponse.badRequest "Invalid symbol or limit reached (50 max)") := by
  have h := C2_registry_invariant ["AAPL"] (by decide) [RegistryOp.add "msft"] "aapl"
  exact ⟨h.1, h.2.1, h.2.2 (Or.inl (by decide))⟩

/-- A news frame carrying only a type, a symbol and a headline. -/
def newsOnly (sym hd : String) : RawNews :=
  { symbol := sym, headline := hd, summary := none, origin := none, url := none,
    image := none, datetime := none, category := none, id := none, related := none }

/-- C3 counterexample: on the frame {type:"news", symbol:"AAPL",
headline:"X"} the transformer sets `related` to the plain string "AAPL"
(the code writes `message.related || message.symbol`), not to the singleton
list ["AAPL"] the claim asserts. -/
theorem C3_related_counterexample :
    (transformNews (newsOnly "AAPL" "X") 0).related = Related.str "AAPL" ∧
    Related.str "AAPL" ≠ Related.arr ["AAPL"] := by
  decide

/-- C3 (amended): for every news frame carrying only a symbol and a
headline, the transformer yields summary "", source "FinHub", category
"general", id = symbol ++ "-" ++ current-millis, and related = the event's
own topic as a plain string; with the webhook configured and the sink
accepting, the event is posted exactly once, messagesSent is incremented
by 1 and errors is unchanged. -/
theorem C3_news_transform_amended (sym hd url : String) (hurl : url ≠ "")
    (now : Nat) (stats : Stats) :
    transformNews (newsOnly sym hd) now =
      { symbol := sym, headline := hd, summary := "", origin := "FinHub",
        url := none, image := none, datetime := none, category := "general",
        id := sym ++ "-" ++ toString now, related := .str sym } ∧
    (messageHandler (some url) true now stats (.news (newsOnly sym hd))).2.2 =
      [⟨url, transformNews (newsOnly sym hd) now⟩] ∧
    (messageHandler (some url) true now stats (.news (newsOnly sym hd))).1.messagesSent =
      stats.messagesSent + 1 ∧
    (messageHandler (some url) true now stats (.news (newsOnly sym hd))).1.errors =
      stats.errors := by
  refine ⟨rfl, ?_, ?_, ?_⟩ <;> simp [messageHandler, sendToN8n, hurl]

/-- Witness for C3 (amended) at symbol "AAPL", headline "X", time 7. -/
theorem C3_news_transform_amended_witness :
    transformNews (newsOnly "AAPL" "X") 7 =
      { symbol := "AAPL", headline := "X", summary := "", origin := "FinHub",
        url := none, image := none, datetime := none, category := "general",
        id := "AAPL" ++ "-" ++ toString 7, related := .str "AAPL" } ∧
    (messageHandler (some "http://n8n.example/hook") true 7 stats0
        (.news (newsOnly "AAPL" "X"))).2.2 =
      [⟨"http://n8n.example/hook", transformNews (newsOnly "AAPL" "X") 7⟩] ∧
    (messageHandler (some "http://n8n.example/hook") true 7 stats0
        (.news (newsOnly "AAPL" "X"))).1.messagesSent = stats0.messagesSent + 1 ∧
    (messageHandler (some "http://n8n.example/hook") true 7 stats0
        (.news (newsOnly "AAPL" "X"))).1.errors = stats0.errors :=
  C3_news_transform_amended "AAPL" "X" "http://n8n.example/hook" (by decide) 7 stats0

/-- On an OPEN socket the replay issues one subscribe frame per registry
entry, in registry order. -/
theorem subscribeToAll_eq_map (SYMBOLS : List String) :
    subscribeToAllSymbols true SYMBOLS = SYMBOLS.map OutFrame.subscribe := by
  induction SYMBOLS with
  | nil => rfl
  | cons a l ih =>
    simp only [subscribeToAllSymbols, subscribeToSymbol, if_pos trivial] at ih ⊢
    simp only [List.map_cons, List.flatten_cons, ih]
    rfl

/-- C4: on open, the handler sets the connected flag, records the
connection timestamp, resets the attempt counter to 0 and arms a 1000 ms
one-shot replay timer; the replay on an OPEN socket issues exactly one
subscribe frame per registry entry in insertion order, and no subscribe
frame is sent when the socket is not OPEN. -/
theorem C4_open_replay (SYMBOLS : List String) (stats : Stats) (now : Nat) (s : String) :
    (openHandler stats now).1.connected = true ∧
    (openHandler stats now).1.connectionTime = some now ∧
    (openHandler stats now).2.1 = 0 ∧
    (openHandler stats now).2.2 = 1000 ∧
    subscribeToAllSymbols true SYMBOLS = SYMBOLS.map OutFrame.subscribe ∧
    (subscribeToAllSymbols true SYMBOLS).length = SYMBOLS.length ∧
    subscribeToAllSymbols false SYMBOLS = [] ∧
    subscribeToSymbol false s = [] :=
  ⟨rfl, rfl, rfl, rfl, subscribeToAll_eq_map SYMBOLS,
   by rw [subscribeToAll_eq_map]; exact List.length_map _ _, rfl, rfl⟩

/-- A concrete canonical event used by witnesses. -/
def ev0 : TransformedNews :=
  { symbol := "AAPL", headline := "X", summary := "", origin := "FinHub",
    url := none, image := none, datetime := none, category := "general",
    id := "AAPL-7", related := .str "AAPL" }

/-- C5: when delivery to the sink fails, sendToN8n increments errors by
exactly 1, leaves messagesSent and the connected flag unchanged, and
attempts exactly one post — the event is dropped, never retried. -/
theorem C5_delivery_failure (url : String) (hurl : url ≠ "")
    (ev : TransformedNews) (stats : Stats) :
    (sendToN8n (some url) ev false stats).1.errors = stats.errors + 1 ∧
    (sendToN8n (some url) ev false stats).1.messagesSent = stats.messagesSent ∧
    (sendToN8n (some url) ev false stats).1.connected = stats.connected ∧
    (sendToN8n (some url) ev false stats).2 = [⟨url, ev⟩] := by
  simp [sendToN8n, hurl]

/-- Witness for C5 at a concrete url, event and statistics record. -/
theorem C5_delivery_failure_witness :
    (sendToN8n (some "http://n8n.example/hook") ev0 false stats0).1.errors = stats0.errors + 1 ∧
    (sendToN8n (some "http://n8n.example/hook") ev0 false stats0).1.messagesSent = stats0.messagesSent ∧
    (sendToN8n (some "http://n8n.example/hook") ev0 false stats0).1.connected = stats0.connected ∧
    (sendToN8n (some "http://n8n.example/hook") ev0 false stats0).2 = [⟨"http://n8n.example/hook", ev0⟩] :=
  C5_delivery_failure "http://n8n.example/hook" (by decide) ev0 stats0

/-- C6 counterexample: handling a ping frame does modify a Stats field
other than the received counter — stats0 has lastMessage = some 5, and
after a ping at time 6 it is some 6 — contradicting the claim that the
last-event timestamp is unchanged. -/
theorem C6_ping_counterexample :
    (messageHandler (some "http://n8n.example/hook") true 6 stats0 RawMessage.ping).2.1 =
      [OutFrame.pong] ∧
    (messageHandler (some "http://n8n.example/hook") true 6 stats0 RawMessage.ping).1.lastMessage ≠
      stats0.lastMessage := by
  decide

/-- C6 (amended): a ping frame yields exactly one pong frame on the socket
and no HTTP post; messagesSent, errors and the connected flag are
unchanged; the received counter is incremented by 1 and the last-message
timestamp is set to the current time (the handler stamps it before
dispatching on the frame kind). -/
theorem C6_ping_amended (webhookUrl : Option String) (sinkOk : Bool)
    (now : Nat) (stats : Stats) :
    (messageHandler webhookUrl sinkOk now stats .ping).2.1 = [OutFrame.pong] ∧
    (messageHandler webhookUrl sinkOk now stats .ping).2.2 = [] ∧
    (messageHandler webhookUrl sinkOk now stats .ping).1.messagesSent = stats.messagesSent ∧
    (messageHandler webhookUrl sinkOk now stats .ping).1.errors = stats.errors ∧
    (messageHandler webhookUrl sinkOk now stats .ping).1.messagesReceived =
      stats.messagesReceived + 1 ∧
    (messageHandler webhookUrl sinkOk now stats .ping).1.lastMessage = some now ∧
    (messageHandler webhookUrl sinkOk now stats .ping).1.connected = stats.connected :=
  ⟨rfl, rfl, rfl, rfl, rfl, rfl, rfl⟩

/-- C7: the reconnect timer callback (server.js lines 269-271) runs
`connectToFinnhub` with no generation or state guard; fired while a newer
connection (generation 2) is already OPEN, it terminates that newer socket
and replaces it with a fresh one — not a no-op. -/
theorem C7_stale_timer_bug :
    (connectToFinnhub true (some ⟨2, .opened⟩) stats0 3).2.2 =
      [ConnEffect.terminate 2, ConnEffect.newSocket 3] ∧
    (connectToFinnhub true (some ⟨2, .opened⟩) stats0 3).1 =
      some ⟨3, WsReadyState.connecting⟩ := by
  decide

/-- C8 counterexample: two faults of the taxonomy do not increment the
error counter — a socket close (the close handler bumps no counter) and a
missing-credential configuration fault (connectToFinnhub returns before
touching any counter). -/
theorem C8_fault_counter_counterexample :
    (closeHandler stats0 0).1.errors = stats0.errors ∧
    (connectToFinnhub false none stats0 1).2.1.errors = stats0.errors ∧
    (connectToFinnhub false none stats0 1).2.2 = [ConnEffect.configError] := by
  decide

/-- C8 (amended): a socket error, a parse fault and a delivery fault each
increment the shared error counter by exactly 1; a socket close and a
missing-credential configuration fault leave it unchanged. -/
theorem C8_fault_counter_amended (stats : Stats) (url : String) (hurl : url ≠ "")
    (ev : TransformedNews) (k gen : Nat) (ws : Option WsHandle) :
    (errorHandler stats).errors = stats.errors + 1 ∧
    (malformedHandler stats).errors = stats.errors + 1 ∧
    (sendToN8n (some url) ev false stats).1.errors = stats.errors + 1 ∧
    (closeHandler stats k).1.errors = stats.errors ∧
    (connectToFinnhub false ws stats gen).2.1.errors = stats.errors := by
  refine ⟨rfl, rfl, ?_, ?_, rfl⟩
  · simp [sendToN8n, hurl]
  · unfold closeHandler
    split <;> rfl

/-- Witness for C8 (amended) at a concrete url, event and state. -/
theorem C8_fault_counter_amended_witness :
    (errorHandler stats0).errors = stats0.errors + 1 ∧
    (malformedHandler stats0).errors = stats0.errors + 1 ∧
    (sendToN8n (some "http://n8n.example/hook") ev0 false stats0).1.errors = stats0.errors + 1 ∧
    (closeHandler stats0 0).1.errors = stats0.errors ∧
    (connectToFinnhub false none stats0 1).2.1.errors = stats0.errors :=
  C8_fault_counter_amended stats0 "http://n8n.example/hook" (by decide) ev0 0 1 none

/-- A full registry: the 50 distinct symbols S0 … S49. -/
def fiftySymbols : List String := (List.range 50).map (fun i => "S" ++ toString i)

/-- C9 counterexample: a duplicate add (registry ["AAPL"], adding "AAPL")
and a limit-exceeded add (a full 50-entry registry, adding the fresh
symbol "MSFT") return the very same 400 response — the two outcomes are
one merged error, not distinct results. -/
theorem C9_merged_outcomes_counterexample :
    upperStr "AAPL" ∈ ["AAPL"] ∧
    fiftySymbols.length = 50 ∧
    upperStr "MSFT" ∉ fiftySymbols ∧
    (addSymbol ["AAPL"] "AAPL").2 = (addSymbol fiftySymbols "MSFT").2 ∧
    (addSymbol ["AAPL"] "AAPL").2 =
      AddResponse.badRequest "Invalid symbol or limit reached (50 max)" := by
  decide

/-- C9 (amended): the add operation distinguishes only two outcomes — ok
(HTTP 200 with the normalized symbol) and one single merged HTTP 400
error, identical for an invalid symbol, a duplicate and a full registry. -/
theorem C9_add_outcomes_amended (l₁ l₂ l : List String) (s₁ s₂ s : String)
    (h₁ : upperStr s₁ ∈ l₁) (h₂ : 50 ≤ l₂.length) :
    (addSymbol l₁ s₁).2 = AddResponse.badRequest "Invalid symbol or limit reached (50 max)" ∧
    (addSymbol l₁ s₁).2 = (addSymbol l₂ s₂).2 ∧
    ((addSymbol l s).2 = AddResponse.added (upperStr s) ∨
      (addSymbol l s).2 = AddResponse.badRequest "Invalid symbol or limit reached (50 max)") := by
  have dup : (addSymbol l₁ s₁).2 =
      AddResponse.badRequest "Invalid symbol or limit reached (50 max)" := by
    unfold addSymbol
    rw [if_neg]
    rintro ⟨-, h, -⟩
    exact h h₁
  have lim : (addSymbol l₂ s₂).2 =
      AddResponse.badRequest "Invalid symbol or limit reached (50 max)" := by
    unfold addSymbol
    rw [if_neg]
    rintro ⟨-, -, h⟩
    omega
  refine ⟨dup, dup.trans lim.symm, ?_⟩
  unfold addSymbol
  split
  · exact Or.inl rfl
  · exact Or.inr rfl

/-- Witness for C9 (amended): the duplicate case ["AAPL"] + "aapl" and the
limit case fiftySymbols + "MSFT". -/
theorem C9_add_outcomes_amended_witness :
    (addSymbol ["AAPL"] "aapl").2 =
      AddResponse.badRequest "Invalid symbol or limit reached (50 max)" ∧
    (addSymbol ["AAPL"] "aapl").2 = (addSymbol fiftySymbols "MSFT").2 ∧
    ((addSymbol ["AAPL"] "msft").2 = AddResponse.added (upperStr "msft") ∨
      (addSymbol ["AAPL"] "msft").2 =
        AddResponse.badRequest "Invalid symbol or limit reached (50 max)") :=
  C9_add_outcomes_amended ["AAPL"] fiftySymbols ["AAPL"] "aapl" "MSFT" "msft"
    (by decide) (by decide)

/-- C10: with no webhook URL configured (unset, or the falsy empty
string), a news event is silently dropped: no HTTP post is attempted and
the statistics record is returned unchanged by sendToN8n; through the
message handler, the sent and error counters are unchanged. -/
theorem C10_no_webhook (ev : TransformedNews) (sinkOk : Bool) (stats : Stats)
    (m : RawNews) (now : Nat) :
    sendToN8n none ev sinkOk stats = (stats, []) ∧
    sendToN8n (some "") ev sinkOk stats = (stats, []) ∧
    (messageHandler none sinkOk now stats (.news m)).1.messagesSent = stats.messagesSent ∧
    (messageHandler none sinkOk now stats (.news m)).1.errors = stats.errors ∧
    (messageHandler none sinkOk now stats (.news m)).2.2 = [] :=
  ⟨rfl, rfl, rfl, rfl, rfl⟩

end Bridge
